import Mathlib

/-!
Verification of the windows-ext-icons crate (src/lib.rs).

The crate has three functions:
* `bgra_to_rgba` — an in-place BGRA→RGBA byte reorder over 16-byte windows,
  implemented with the x86 `_mm_shuffle_epi8` (pshufb) instruction and the
  shuffle mask `_mm_setr_epi8(2,1,0,3, 6,5,4,7, 10,9,8,11, 14,13,12,15)`;
* `hicon_to_image` — extraction of an icon handle into an `RgbaImage` via
  `GetIconInfoExW`, two `CreateCompatibleDC`, `SelectObject`, `GetDIBits`,
  the cleanup calls (`DeleteDC` twice, `DeleteObject` twice), a 32-bit
  format check, `bgra_to_rgba`, and `ImageBuffer::from_raw(...).expect(...)`;
* `fetch_icon_as_image` — shell lookup (`SHGetFileInfoW`, `SHGetImageList`,
  `IImageList::GetIcon`), then `hicon_to_image`, then `DestroyIcon`.

Pixel buffers are embedded as `List Nat` (one entry per byte).  The Win32
platform calls are embedded as an oracle record `WinEnv` giving each call's
result; the observable release/destroy/reorder calls are recorded as an
`Event` trace.  The `u32` arithmetic of the Rust source (hotspot doubling and
the buffer-size product) is modelled with explicit `% 2^32` wrapping, the
defined behaviour of release builds.
-/

/-- Semantics of `_mm_shuffle_epi8` (pshufb) as used on a 16-byte window:
output byte `i` is `0` when mask byte `i` has its high bit set, and otherwise
the source byte indexed by the low four bits of mask byte `i`. -/
def pshufb (src : List Nat) (mask : List Nat) : List Nat :=
  mask.map (fun m => if 128 ≤ m % 256 then 0 else src.getD (m % 16) 0)

/-- The shuffle mask built by `_mm_setr_epi8` in `bgra_to_rgba`
(src/lib.rs lines 112-119). -/
def bgraMask : List Nat := [2, 1, 0, 3, 6, 5, 4, 7, 10, 9, 8, 11, 14, 13, 12, 15]

/-- `bgra_to_rgba` (src/lib.rs lines 111-126): iterate over
`chunks_exact_mut(16)`, replacing each full 16-byte chunk by its pshufb
shuffle under `bgraMask`; a trailing chunk shorter than 16 bytes is not
visited by `chunks_exact_mut` and is left unchanged. -/
def bgra_to_rgba : List Nat → List Nat
  | b0 :: b1 :: b2 :: b3 :: b4 :: b5 :: b6 :: b7 ::
    b8 :: b9 :: b10 :: b11 :: b12 :: b13 :: b14 :: b15 :: rest =>
      pshufb [b0, b1, b2, b3, b4, b5, b6, b7,
              b8, b9, b10, b11, b12, b13, b14, b15] bgraMask
        ++ bgra_to_rgba rest
  | l => l

/-- Reference reorderer written from the specification's words: each 16-byte
window is permuted by the fixed index sequence
`[2,1,0,3, 6,5,4,7, 10,9,8,11, 14,13,12,15]` (output byte `j` is window byte
`seq[j]`).  Used only to compare against `bgra_to_rgba`. -/
def specPermuteWindows : List Nat → List Nat
  | b0 :: b1 :: b2 :: b3 :: b4 :: b5 :: b6 :: b7 ::
    b8 :: b9 :: b10 :: b11 :: b12 :: b13 :: b14 :: b15 :: rest =>
      ([2, 1, 0, 3, 6, 5, 4, 7, 10, 9, 8, 11, 14, 13, 12, 15].map
        (fun i => [b0, b1, b2, b3, b4, b5, b6, b7,
                   b8, b9, b10, b11, b12, b13, b14, b15].getD i 0))
        ++ specPermuteWindows rest
  | l => l

lemma bgra_cons (b0 b1 b2 b3 b4 b5 b6 b7 b8 b9 b10 b11 b12 b13 b14 b15 : Nat)
    (rest : List Nat) :
    bgra_to_rgba (b0 :: b1 :: b2 :: b3 :: b4 :: b5 :: b6 :: b7 ::
      b8 :: b9 :: b10 :: b11 :: b12 :: b13 :: b14 :: b15 :: rest) =
    b2 :: b1 :: b0 :: b3 :: b6 :: b5 :: b4 :: b7 ::
      b10 :: b9 :: b8 :: b11 :: b14 :: b13 :: b12 :: b15 :: bgra_to_rgba rest := rfl

lemma spec_cons (b0 b1 b2 b3 b4 b5 b6 b7 b8 b9 b10 b11 b12 b13 b14 b15 : Nat)
    (rest : List Nat) :
    specPermuteWindows (b0 :: b1 :: b2 :: b3 :: b4 :: b5 :: b6 :: b7 ::
      b8 :: b9 :: b10 :: b11 :: b12 :: b13 :: b14 :: b15 :: rest) =
    b2 :: b1 :: b0 :: b3 :: b6 :: b5 :: b4 :: b7 ::
      b10 :: b9 :: b8 :: b11 :: b14 :: b13 :: b12 :: b15 ::
      specPermuteWindows rest := rfl

lemma drop16_cons (c0 c1 c2 c3 c4 c5 c6 c7 c8 c9 c10 c11 c12 c13 c14 c15 : Nat)
    (t : List Nat) :
    List.drop 16 (c0 :: c1 :: c2 :: c3 :: c4 :: c5 :: c6 :: c7 ::
      c8 :: c9 :: c10 :: c11 :: c12 :: c13 :: c14 :: c15 :: t) = t := rfl

/-- A window-at-a-time induction principle matching the recursion of
`bgra_to_rgba`. -/
theorem chunk_ind (P : List Nat → Prop)
    (base : ∀ l : List Nat, l.length < 16 → P l)
    (step : ∀ b0 b1 b2 b3 b4 b5 b6 b7 b8 b9 b10 b11 b12 b13 b14 b15 rest,
      P rest →
      P (b0 :: b1 :: b2 :: b3 :: b4 :: b5 :: b6 :: b7 ::
         b8 :: b9 :: b10 :: b11 :: b12 :: b13 :: b14 :: b15 :: rest)) :
    ∀ l : List Nat, P l
  | b0 :: b1 :: b2 :: b3 :: b4 :: b5 :: b6 :: b7 ::
    b8 :: b9 :: b10 :: b11 :: b12 :: b13 :: b14 :: b15 :: rest =>
      step b0 b1 b2 b3 b4 b5 b6 b7 b8 b9 b10 b11 b12 b13 b14 b15 rest
        (chunk_ind P base step rest)
  | [] => base [] (by simp only [List.length_cons, List.length_nil]; omega)
  | [b0] => base [b0] (by simp only [List.length_cons, List.length_nil]; omega)
  | [b0, b1] => base [b0, b1] (by simp only [List.length_cons, List.length_nil]; omega)
  | [b0, b1, b2] => base [b0, b1, b2] (by simp only [List.length_cons, List.length_nil]; omega)
  | [b0, b1, b2, b3] => base [b0, b1, b2, b3] (by simp only [List.length_cons, List.length_nil]; omega)
  | [b0, b1, b2, b3, b4] => base [b0, b1, b2, b3, b4] (by simp only [List.length_cons, List.length_nil]; omega)
  | [b0, b1, b2, b3, b4, b5] => base [b0, b1, b2, b3, b4, b5] (by simp only [List.length_cons, List.length_nil]; omega)
  | [b0, b1, b2, b3, b4, b5, b6] => base [b0, b1, b2, b3, b4, b5, b6] (by simp only [List.length_cons, List.length_nil]; omega)
  | [b0, b1, b2, b3, b4, b5, b6, b7] =>
      base [b0, b1, b2, b3, b4, b5, b6, b7] (by simp only [List.length_cons, List.length_nil]; omega)
  | [b0, b1, b2, b3, b4, b5, b6, b7, b8] =>
      base [b0, b1, b2, b3, b4, b5, b6, b7, b8] (by simp only [List.length_cons, List.length_nil]; omega)
  | [b0, b1, b2, b3, b4, b5, b6, b7, b8, b9] =>
      base [b0, b1, b2, b3, b4, b5, b6, b7, b8, b9] (by simp only [List.length_cons, List.length_nil]; omega)
  | [b0, b1, b2, b3, b4, b5, b6, b7, b8, b9, b10] =>
      base [b0, b1, b2, b3, b4, b5, b6, b7, b8, b9, b10] (by simp only [List.length_cons, List.length_nil]; omega)
  | [b0, b1, b2, b3, b4, b5, b6, b7, b8, b9, b10, b11] =>
      base [b0, b1, b2, b3, b4, b5, b6, b7, b8, b9, b10, b11] (by simp only [List.length_cons, List.length_nil]; omega)
  | [b0, b1, b2, b3, b4, b5, b6, b7, b8, b9, b10, b11, b12] =>
      base [b0, b1, b2, b3, b4, b5, b6, b7, b8, b9, b10, b11, b12] (by simp only [List.length_cons, List.length_nil]; omega)
  | [b0, b1, b2, b3, b4, b5, b6, b7, b8, b9, b10, b11, b12, b13] =>
      base [b0, b1, b2, b3, b4, b5, b6, b7, b8, b9, b10, b11, b12, b13] (by simp only [List.length_cons, List.length_nil]; omega)
  | [b0, b1, b2, b3, b4, b5, b6, b7, b8, b9, b10, b11, b12, b13, b14] =>
      base [b0, b1, b2, b3, b4, b5, b6, b7, b8, b9, b10, b11, b12, b13, b14]
        (by simp only [List.length_cons, List.length_nil]; omega)

/-- Buffers shorter than one window are untouched (`chunks_exact_mut(16)`
visits no chunk). -/
lemma bgra_short (l : List Nat) (h : l.length < 16) : bgra_to_rgba l = l := by
  rcases l with _ | ⟨b0, l⟩
  · rfl
  rcases l with _ | ⟨b1, l⟩
  · rfl
  rcases l with _ | ⟨b2, l⟩
  · rfl
  rcases l with _ | ⟨b3, l⟩
  · rfl
  rcases l with _ | ⟨b4, l⟩
  · rfl
  rcases l with _ | ⟨b5, l⟩
  · rfl
  rcases l with _ | ⟨b6, l⟩
  · rfl
  rcases l with _ | ⟨b7, l⟩
  · rfl
  rcases l with _ | ⟨b8, l⟩
  · rfl
  rcases l with _ | ⟨b9, l⟩
  · rfl
  rcases l with _ | ⟨b10, l⟩
  · rfl
  rcases l with _ | ⟨b11, l⟩
  · rfl
  rcases l with _ | ⟨b12, l⟩
  · rfl
  rcases l with _ | ⟨b13, l⟩
  · rfl
  rcases l with _ | ⟨b14, l⟩
  · rfl
  rcases l with _ | ⟨b15, l⟩
  · rfl
  simp only [List.length_cons] at h
  omega

/-- The reorder never changes the buffer length. -/
lemma bgra_length (l : List Nat) : (bgra_to_rgba l).length = l.length := by
  induction l using chunk_ind with
  | base l hl => rw [bgra_short l hl]
  | step b0 b1 b2 b3 b4 b5 b6 b7 b8 b9 b10 b11 b12 b13 b14 b15 rest ih =>
      rw [bgra_cons]
      simp only [List.length_cons, ih]

/-- Applying the reorder twice restores any buffer (each window's shuffle is
an involution, and the trailing partial window is untouched both times). -/
lemma bgra_involutive (l : List Nat) :
    bgra_to_rgba (bgra_to_rgba l) = l := by
  induction l using chunk_ind with
  | base l hl => rw [bgra_short l hl, bgra_short l hl]
  | step b0 b1 b2 b3 b4 b5 b6 b7 b8 b9 b10 b11 b12 b13 b14 b15 rest ih =>
      rw [bgra_cons, bgra_cons, ih]

/-- Claim C1: on 16-byte-aligned buffers `bgra_to_rgba` permutes every 16-byte
window by the fixed index sequence `[2,1,0,3, 6,5,4,7, 10,9,8,11, 14,13,12,15]`
(as captured verbatim by `specPermuteWindows`); in particular one window
`[B0,G0,R0,A0, B1,G1,R1,A1, B2,G2,R2,A2, B3,G3,R3,A3]` becomes exactly
`[R0,G0,B0,A0, R1,G1,B1,A1, R2,G2,B2,A2, R3,G3,B3,A3]`. -/
theorem claim1_window_permutation :
    (∀ data : List Nat, data.length % 16 = 0 →
      bgra_to_rgba data = specPermuteWindows data) ∧
    (∀ B0 G0 R0 A0 B1 G1 R1 A1 B2 G2 R2 A2 B3 G3 R3 A3 : Nat,
      bgra_to_rgba [B0, G0, R0, A0, B1, G1, R1, A1,
                    B2, G2, R2, A2, B3, G3, R3, A3] =
        [R0, G0, B0, A0, R1, G1, B1, A1, R2, G2, B2, A2, R3, G3, B3, A3]) := by
  constructor
  · intro data
    induction data using chunk_ind with
    | base l hl =>
        intro halign
        have h0 : l.length = 0 := by omega
        rcases List.length_eq_zero.mp h0 with rfl
        rfl
    | step b0 b1 b2 b3 b4 b5 b6 b7 b8 b9 b10 b11 b12 b13 b14 b15 rest ih =>
        intro halign
        simp only [List.length_cons] at halign
        have hr : rest.length % 16 = 0 := by omega
        rw [bgra_cons, spec_cons, ih hr]
  · intro B0 G0 R0 A0 B1 G1 R1 A1 B2 G2 R2 A2 B3 G3 R3 A3
    rfl

/-- Witness for C1 at a concrete 16-byte buffer. -/
theorem claim1_witness :
    bgra_to_rgba [10, 20, 30, 40, 50, 60, 70, 80,
                  90, 100, 110, 120, 130, 140, 150, 160] =
      specPermuteWindows [10, 20, 30, 40, 50, 60, 70, 80,
                          90, 100, 110, 120, 130, 140, 150, 160] :=
  claim1_window_permutation.1 _ (by decide)

/-- Claim C2: applying `bgra_to_rgba` twice to a buffer whose length is a
multiple of 16 restores the original buffer exactly. -/
theorem claim2_involution (data : List Nat) (h : data.length % 16 = 0) :
    bgra_to_rgba (bgra_to_rgba data) = data :=
  bgra_involutive data

/-- Witness for C2 at a concrete 16-byte buffer. -/
theorem claim2_witness :
    bgra_to_rgba (bgra_to_rgba [1, 2, 3, 4, 5, 6, 7, 8,
                                9, 10, 11, 12, 13, 14, 15, 16]) =
      [1, 2, 3, 4, 5, 6, 7, 8, 9, 10, 11, 12, 13, 14, 15, 16] :=
  claim2_involution _ (by decide)

/-- Claim C5: `bgra_to_rgba` never changes the buffer length, and the trailing
`length mod 16` bytes after the last full 16-byte window are left unchanged. -/
theorem claim5_length_and_tail (data : List Nat) :
    (bgra_to_rgba data).length = data.length ∧
    (bgra_to_rgba data).drop (16 * (data.length / 16)) =
      data.drop (16 * (data.length / 16)) := by
  refine ⟨bgra_length data, ?_⟩
  induction data using chunk_ind with
  | base l hl =>
      have h0 : 16 * (l.length / 16) = 0 := by omega
      rw [h0, List.drop_zero, List.drop_zero, bgra_short l hl]
  | step b0 b1 b2 b3 b4 b5 b6 b7 b8 b9 b10 b11 b12 b13 b14 b15 rest ih =>
      rw [bgra_cons]
      simp only [List.length_cons]
      have hdiv : 16 * ((rest.length + 16) / 16) = 16 + 16 * (rest.length / 16) := by
        omega
      have harr : rest.length + 1 + 1 + 1 + 1 + 1 + 1 + 1 + 1 +
          1 + 1 + 1 + 1 + 1 + 1 + 1 + 1 = rest.length + 16 := by omega
      rw [harr, hdiv, ← List.drop_drop, ← List.drop_drop, drop16_cons, drop16_cons]
      exact ih

/-- One byte-for-byte wrap of Rust `u32` arithmetic. -/
def U32 : Nat := 4294967296

/-- Error kinds of the crate, one per `return Err(...)` / `?` site:
`resolutionFailed` is the string "Failed to retrieve icon";
`imageListUnavailable` and `getIconFailed` are the windows errors propagated
by `SHGetImageList(...)?` and `GetIcon(...)?`; `resourceInfoUnavailable` is
"Failed to retrieve icon information"; `pixelReadbackFailed` is
"Failed to retrieve bitmap data"; `cleanupFailed` is a windows error
propagated by `DeleteDC(...).ok()?` or `DeleteObject(...).ok()?`;
`unsupportedPixelFormat` is "Icon is not 32-bit"; `destroyFailed` is the
windows error propagated by `DestroyIcon(icon)?`. -/
inductive Err
  | resolutionFailed
  | imageListUnavailable
  | getIconFailed
  | resourceInfoUnavailable
  | pixelReadbackFailed
  | cleanupFailed
  | unsupportedPixelFormat
  | destroyFailed
  deriving DecidableEq

/-- The `RgbaImage` (`ImageBuffer`) produced on success: dimensions plus the
flat byte container. -/
structure RgbaImage where
  width : Nat
  height : Nat
  pixels : List Nat
  deriving DecidableEq

/-- Result of running one of the fallible functions: a successful image, an
error return, or a panic of the `.expect(...)` call at the `ImageBuffer`
construction. -/
inductive Outcome
  | ok (img : RgbaImage)
  | err (e : Err)
  | panicked
  deriving DecidableEq

/-- Observable platform calls tracked by the model: the two `DeleteDC`
releases, the two `DeleteObject` releases, the invocation of `bgra_to_rgba`,
and `DestroyIcon`. -/
inductive Event
  | releaseMemDC
  | releaseScreenDC
  | releaseColorBitmap
  | releaseMaskBitmap
  | reorder
  | destroyIcon
  deriving DecidableEq

/-- Oracle for the Win32 calls: each field is the result the platform hands
back to the corresponding call site.  `u32`-typed quantities (`iIcon` is
`i32`) are wrapped where the code uses them. -/
structure WinEnv where
  /-- return value of `SHGetFileInfoW` (`0` means failure) -/
  shGetFileInfoRet : Nat
  /-- `file_info.iIcon` after `SHGetFileInfoW` -/
  iIcon : Int
  /-- whether `SHGetImageList` succeeds -/
  shGetImageListOk : Bool
  /-- whether `IImageList::GetIcon` succeeds -/
  getIconOk : Bool
  /-- whether `GetIconInfoExW` succeeds -/
  getIconInfoOk : Bool
  /-- `icon_info.xHotspot` (a `u32`) -/
  xHotspot : Nat
  /-- `icon_info.yHotspot` (a `u32`) -/
  yHotspot : Nat
  /-- whether `GetDIBits` returns nonzero -/
  getDIBitsOk : Bool
  /-- the bytes `GetDIBits` writes into the front of the pixel buffer -/
  dibits : List Nat
  /-- `bmp_info.bmiHeader.biBitCount` after `GetDIBits` -/
  outBitCount : Nat
  /-- whether `DeleteDC(mem_dc)` succeeds -/
  deleteMemDcOk : Bool
  /-- whether `DeleteDC(screen_dc)` succeeds -/
  deleteScreenDcOk : Bool
  /-- whether `DeleteObject(icon_info.hbmColor)` succeeds -/
  deleteColorOk : Bool
  /-- whether `DeleteObject(icon_info.hbmMask)` succeeds -/
  deleteMaskOk : Bool
  /-- whether `DestroyIcon` succeeds -/
  destroyIconOk : Bool
  deriving DecidableEq

/-- `hicon_to_image` (src/lib.rs lines 47-108), with the platform calls read
from the oracle `env` and the release/reorder calls traced in order:
1. `GetIconInfoExW`; on failure return "Failed to retrieve icon information".
2. Allocate `vec![0; xHotspot * 2 * yHotspot * 2 * 4]` (`u32` arithmetic,
   left-associated, each step wrapped).
3. `GetDIBits`; on zero return "Failed to retrieve bitmap data" — note the
   Rust code returns here *before* any `DeleteDC`/`DeleteObject` call.
4. `DeleteDC(mem_dc).ok()?`, `DeleteDC(screen_dc).ok()?`,
   `DeleteObject(hbmColor).ok()?`, `DeleteObject(hbmMask).ok()?` in order;
   each failing call propagates a windows error, skipping the rest.
5. If `biBitCount != 32` return "Icon is not 32-bit".
6. `bgra_to_rgba(&mut pixel_data)`.
7. `ImageBuffer::from_raw(w, h, data)` which (per the image crate) succeeds
   iff `w * h * 4` fits in `usize` and is at most `data.len()`;
   `.expect(...)` panics otherwise. -/
def hicon_to_image (env : WinEnv) : Outcome × List Event :=
  if env.getIconInfoOk = false then (.err .resourceInfoUnavailable, [])
  else
    let hx := env.xHotspot % U32
    let hy := env.yHotspot % U32
    let bufLen := hx * 2 % U32 * hy % U32 * 2 % U32 * 4 % U32
    if env.getDIBitsOk = false then (.err .pixelReadbackFailed, [])
    else
      let pixel_data := (env.dibits ++ List.replicate bufLen 0).take bufLen
      if env.deleteMemDcOk = false then
        (.err .cleanupFailed, [.releaseMemDC])
      else if env.deleteScreenDcOk = false then
        (.err .cleanupFailed, [.releaseMemDC, .releaseScreenDC])
      else if env.deleteColorOk = false then
        (.err .cleanupFailed, [.releaseMemDC, .releaseScreenDC, .releaseColorBitmap])
      else if env.deleteMaskOk = false then
        (.err .cleanupFailed,
          [.releaseMemDC, .releaseScreenDC, .releaseColorBitmap, .releaseMaskBitmap])
      else if env.outBitCount ≠ 32 then
        (.err .unsupportedPixelFormat,
          [.releaseMemDC, .releaseScreenDC, .releaseColorBitmap, .releaseMaskBitmap])
      else
        let width := hx * 2 % U32
        let height := hy * 2 % U32
        let rgba := bgra_to_rgba pixel_data
        let evs := [Event.releaseMemDC, Event.releaseScreenDC,
                    Event.releaseColorBitmap, Event.releaseMaskBitmap, Event.reorder]
        if 18446744073709551616 ≤ width * height * 4 then (.panicked, evs)
        else if width * height * 4 ≤ rgba.length then
          (.ok ⟨width, height, rgba⟩, evs)
        else (.panicked, evs)

/-- `fetch_icon_as_image` (src/lib.rs lines 18-44):
`SHGetFileInfoW` returning `0`, or `file_info.iIcon == 0`, yields
"Failed to retrieve icon"; then `SHGetImageList(...)?`, `GetIcon(...)?`,
`hicon_to_image(&icon)?` — whose `?` on failure returns *without* calling
`DestroyIcon` — and finally `DestroyIcon(icon)?` before `Ok(image)`. -/
def fetch_icon_as_image (env : WinEnv) : Outcome × List Event :=
  if env.shGetFileInfoRet = 0 ∨ env.iIcon = 0 then (.err .resolutionFailed, [])
  else if env.shGetImageListOk = false then (.err .imageListUnavailable, [])
  else if env.getIconOk = false then (.err .getIconFailed, [])
  else
    match hicon_to_image env with
    | (Outcome.ok img, evs) =>
        if env.destroyIconOk = false then
          (.err .destroyFailed, evs ++ [Event.destroyIcon])
        else (.ok img, evs ++ [Event.destroyIcon])
    | (Outcome.err e, evs) => (.err e, evs)
    | (Outcome.panicked, evs) => (.panicked, evs)

lemma readback_length (bits : List Nat) (n : Nat) :
    ((bits ++ List.replicate n 0).take n).length = n := by
  simp only [List.length_take, List.length_append, List.length_replicate]
  exact Nat.min_eq_left (Nat.le_add_left n bits.length)

/-- Length of the pixel buffer after allocation, readback and reorder. -/
lemma pipeline_length (bits : List Nat) (n : Nat) :
    (bgra_to_rgba ((bits ++ List.replicate n 0).take n)).length = n := by
  rw [bgra_length, readback_length]

lemma eq_of_wrap_le (a b : Nat) (hcong : a % U32 = b) (hab : a ≤ b)
    (hb : b < U32) : a = b := by
  rwa [Nat.mod_eq_of_lt (lt_of_le_of_lt hab hb)] at hcong

/-- The `from_raw` size `width * height * 4`, reduced modulo `2^32`, equals
the wrapped product computed exactly as in the source. -/
lemma widthprod_as_mod (x y : Nat) :
    x * 2 % U32 * (y * 2 % U32) * 4 % U32 = x * 2 * y * 2 * 4 % U32 := by
  have h1 : x * 2 % U32 * (y * 2 % U32) * 4 ≡ x * 2 * (y * 2) * 4 [MOD U32] :=
    ((Nat.mod_modEq (x * 2) U32).mul (Nat.mod_modEq (y * 2) U32)).mul_right 4
  have e : x * 2 * (y * 2) * 4 = x * 2 * y * 2 * 4 := by ring
  calc x * 2 % U32 * (y * 2 % U32) * 4 % U32
      = x * 2 * (y * 2) * 4 % U32 := h1
    _ = x * 2 * y * 2 * 4 % U32 := by rw [e]

/-- The step-by-step wrapped `u32` size computation of the allocation equals
the full product reduced modulo `2^32` once. -/
lemma bufLen_as_mod (x y : Nat) :
    x * 2 % U32 * y % U32 * 2 % U32 * 4 % U32 = x * 2 * y * 2 * 4 % U32 := by
  have h2 : x * 2 % U32 * y ≡ x * 2 * y [MOD U32] :=
    (Nat.mod_modEq (x * 2) U32).mul_right y
  have h3 : x * 2 % U32 * y % U32 * 2 ≡ x * 2 * y * 2 [MOD U32] :=
    ((Nat.mod_modEq (x * 2 % U32 * y) U32).trans h2).mul_right 2
  have h4 : x * 2 % U32 * y % U32 * 2 % U32 * 4 ≡ x * 2 * y * 2 * 4 [MOD U32] :=
    ((Nat.mod_modEq (x * 2 % U32 * y % U32 * 2) U32).trans h3).mul_right 4
  exact h4

lemma wrap_mul2 (x : Nat) : x % U32 * 2 % U32 = x * 2 % U32 :=
  (Nat.mod_modEq x U32).mul_right 2

/-- When the `from_raw` size neither overflows `usize` nor exceeds the
buffer length, the `.expect` cannot panic. -/
lemma hicon_no_panic (env : WinEnv)
    (F1 : ¬(18446744073709551616 ≤
      env.xHotspot % U32 * 2 % U32 * (env.yHotspot % U32 * 2 % U32) * 4))
    (F2 : env.xHotspot % U32 * 2 % U32 * (env.yHotspot % U32 * 2 % U32) * 4 ≤
      env.xHotspot % U32 * 2 % U32 * (env.yHotspot % U32) % U32 * 2 % U32 * 4
        % U32) :
    (hicon_to_image env).1 ≠ Outcome.panicked := by
  simp only [hicon_to_image, pipeline_length]
  simp only [F1, F2, if_true, if_false]
  split
  · simp
  split
  · simp
  split
  · simp
  split
  · simp
  split
  · simp
  split
  · simp
  split
  · simp
  simp

/-- Claim C3 (code bug): the claim states that when `GetDIBits` fails, the two
device contexts and the two bitmap handles are still released exactly once
each before the error is returned.  The code instead executes
`return Err("Failed to retrieve bitmap data")` (line 86) *before* the
`DeleteDC`/`DeleteObject` block (lines 89-93), so on this path no release
call is made at all: the evaluation below shows an empty release trace. -/
theorem claim3_no_cleanup_on_readback_failure :
    hicon_to_image ⟨1, 1, true, true, true, 16, 16, false, [], 32,
      true, true, true, true, true⟩ =
      (Outcome.err Err.pixelReadbackFailed, []) := by decide

/-- Claim C4, counterexample to the claim as stated: for an icon resource
whose hotspots are both zero (derived width and height zero) and whose
platform calls all succeed, `hicon_to_image` returns a *successful* empty
`ImageBuffer`, not an `InvalidDimensions` error (no such check exists in the
code). -/
theorem claim4_counterexample :
    (hicon_to_image ⟨1, 1, true, true, true, 0, 0, true, [], 32,
      true, true, true, true, true⟩).1 =
      Outcome.ok ⟨0, 0, []⟩ := by decide

/-- Claim C4, amended: for every icon resource whose derived width
(`2 * hotspot_x` in `u32`) or derived height is zero, when the info query,
readback and the four cleanup calls succeed and the reported depth is 32,
`hicon_to_image` returns a successful `ImageBuffer` whose pixel buffer is
empty and one of whose dimensions is zero; the code never produces an
`InvalidDimensions`-kind error. -/
theorem claim4_zero_dimensions_empty_success (env : WinEnv)
    (h1 : env.getIconInfoOk = true) (h2 : env.getDIBitsOk = true)
    (h3 : env.deleteMemDcOk = true) (h4 : env.deleteScreenDcOk = true)
    (h5 : env.deleteColorOk = true) (h6 : env.deleteMaskOk = true)
    (h7 : env.outBitCount = 32)
    (hz : env.xHotspot * 2 % U32 = 0 ∨ env.yHotspot * 2 % U32 = 0) :
    ∃ img : RgbaImage, (hicon_to_image env).1 = Outcome.ok img ∧
      img.pixels = [] ∧ (img.width = 0 ∨ img.height = 0) := by
  rcases hz with hw | hh
  · have hd : U32 ∣ env.xHotspot * 2 := Nat.dvd_of_mod_eq_zero hw
    have hbuf : env.xHotspot * 2 * env.yHotspot * 2 * 4 % U32 = 0 := by
      have e : env.xHotspot * 2 * env.yHotspot * 2 * 4 =
          env.xHotspot * 2 * (env.yHotspot * 2 * 4) := by ring
      rw [e]
      exact Nat.mod_eq_zero_of_dvd (hd.mul_right _)
    refine ⟨⟨0, env.yHotspot * 2 % U32, []⟩, ?_, rfl, Or.inl rfl⟩
    simp [hicon_to_image, h1, h2, h3, h4, h5, h6, h7, hw, hbuf, bgra_to_rgba]
  · have hd : U32 ∣ env.yHotspot * 2 := Nat.dvd_of_mod_eq_zero hh
    have hbuf : env.xHotspot * 2 * env.yHotspot * 2 * 4 % U32 = 0 := by
      have e : env.xHotspot * 2 * env.yHotspot * 2 * 4 =
          env.yHotspot * 2 * (env.xHotspot * 2 * 4) := by ring
      rw [e]
      exact Nat.mod_eq_zero_of_dvd (hd.mul_right _)
    refine ⟨⟨env.xHotspot * 2 % U32, 0, []⟩, ?_, rfl, Or.inr rfl⟩
    simp [hicon_to_image, h1, h2, h3, h4, h5, h6, h7, hh, hbuf, bgra_to_rgba]

/-- Witness for the amended C4 at a concrete all-zero-hotspot environment. -/
theorem claim4_witness :
    ∃ img : RgbaImage,
      (hicon_to_image ⟨1, 1, true, true, true, 0, 0, true, [], 32,
        true, true, true, true, true⟩).1 = Outcome.ok img ∧
      img.pixels = [] ∧ (img.width = 0 ∨ img.height = 0) :=
  claim4_zero_dimensions_empty_success _ rfl rfl rfl rfl rfl rfl rfl
    (Or.inl (by decide))

/-- Claim C6, counterexample to the claim as stated: with a reported bit
depth of 16 *and* a failing `DeleteDC(mem_dc)`, the function returns the
propagated cleanup error, not an `UnsupportedPixelFormat`-kind error —
the format check at line 95 runs only after the cleanup calls, whose
failures return first via `.ok()?`. -/
theorem claim6_counterexample :
    (⟨1, 1, true, true, true, 1, 1, true, [], 16,
      false, true, true, true, true⟩ : WinEnv).outBitCount ≠ 32 ∧
    hicon_to_image ⟨1, 1, true, true, true, 1, 1, true, [], 16,
      false, true, true, true, true⟩ =
      (Outcome.err Err.cleanupFailed, [Event.releaseMemDC]) ∧
    Outcome.err Err.cleanupFailed ≠ Outcome.err Err.unsupportedPixelFormat := by
  decide

/-- Claim C6, amended: whenever the reported bit depth differs from 32 the
channel reorder is never invoked; and provided the preceding four
release calls succeed (their failure takes precedence, since the format
check follows the cleanup), the result is the
`UnsupportedPixelFormat`-kind error "Icon is not 32-bit". -/
theorem claim6_non32_rejection :
    (∀ env : WinEnv, env.outBitCount ≠ 32 →
      Event.reorder ∉ (hicon_to_image env).2) ∧
    (∀ env : WinEnv, env.getIconInfoOk = true → env.getDIBitsOk = true →
      env.deleteMemDcOk = true → env.deleteScreenDcOk = true →
      env.deleteColorOk = true → env.deleteMaskOk = true →
      env.outBitCount ≠ 32 →
      (hicon_to_image env).1 = Outcome.err Err.unsupportedPixelFormat) := by
  constructor
  · intro env h
    simp only [hicon_to_image]
    split
    · simp
    split
    · simp
    split
    · simp
    split
    · simp
    split
    · simp
    split
    · simp
    simp
  · intro env h1 h2 h3 h4 h5 h6 h7
    simp [hicon_to_image, h1, h2, h3, h4, h5, h6, h7]

/-- Witness for the amended C6 at a concrete 24-bit environment. -/
theorem claim6_witness :
    Event.reorder ∉ (hicon_to_image ⟨1, 1, true, true, true, 1, 1, true, [],
      24, true, true, true, true, true⟩).2 ∧
    (hicon_to_image ⟨1, 1, true, true, true, 1, 1, true, [],
      24, true, true, true, true, true⟩).1 =
      Outcome.err Err.unsupportedPixelFormat :=
  ⟨claim6_non32_rejection.1 _ (by decide),
   claim6_non32_rejection.2 _ rfl rfl rfl rfl rfl rfl (by decide)⟩

/-- Claim C7, counterexample to the claim as stated: the claim asserts the
returned width equals `2 * hotspot_x`, but the source computes it in `u32`;
with `hotspot_x = 2^31` (and all calls succeeding) the conversion succeeds
with width `0`, not `2^32`. -/
theorem claim7_counterexample :
    (hicon_to_image ⟨1, 1, true, true, true, 2147483648, 1, true, [], 32,
      true, true, true, true, true⟩).1 = Outcome.ok ⟨0, 2, []⟩ ∧
    (0 : Nat) ≠ 2 * 2147483648 := by decide

/-- Claim C7, amended: every successfully returned `ImageBuffer` satisfies
`pixels.length = width * height * 4`, with
`width = hotspot_x * 2 mod 2^32` and `height = hotspot_y * 2 mod 2^32`
(the claim's `width = 2 * hotspot_x` holds whenever the doubling does not
overflow `u32`). -/
theorem claim7_dimension_invariant (env : WinEnv) (img : RgbaImage)
    (h : (hicon_to_image env).1 = Outcome.ok img) :
    img.pixels.length = img.width * img.height * 4 ∧
    img.width = env.xHotspot * 2 % U32 ∧
    img.height = env.yHotspot * 2 % U32 := by
  simp only [hicon_to_image] at h
  split at h
  · simp at h
  split at h
  · simp at h
  split at h
  · simp at h
  split at h
  · simp at h
  split at h
  · simp at h
  split at h
  · simp at h
  split at h
  · simp at h
  split at h
  · simp at h
  split at h
  · rename_i hle
    rw [pipeline_length] at hle
    simp only at h
    rw [Outcome.ok.injEq] at h
    subst h
    refine ⟨?_, wrap_mul2 env.xHotspot, wrap_mul2 env.yHotspot⟩
    show (bgra_to_rgba _).length = _
    rw [pipeline_length]
    exact (eq_of_wrap_le _ _
      ((widthprod_as_mod (env.xHotspot % U32) (env.yHotspot % U32)).trans
        (bufLen_as_mod (env.xHotspot % U32) (env.yHotspot % U32)).symm)
      hle (Nat.mod_lt _ (by decide))).symm
  · simp at h

/-- Witness for the amended C7 at a 1x1-hotspot environment producing a 2x2
all-zero image. -/
theorem claim7_witness :
    (⟨2, 2, [0, 0, 0, 0, 0, 0, 0, 0, 0, 0, 0, 0, 0, 0, 0, 0]⟩ :
        RgbaImage).pixels.length =
      (⟨2, 2, [0, 0, 0, 0, 0, 0, 0, 0, 0, 0, 0, 0, 0, 0, 0, 0]⟩ :
        RgbaImage).width *
      (⟨2, 2, [0, 0, 0, 0, 0, 0, 0, 0, 0, 0, 0, 0, 0, 0, 0, 0]⟩ :
        RgbaImage).height * 4 :=
  (claim7_dimension_invariant ⟨1, 1, true, true, true, 1, 1, true, [], 32,
      true, true, true, true, true⟩ _ (by decide)).1

/-- Claim C8, counterexample to the claim as stated: the length-mismatch
branch of the `ImageBuffer` construction *is* reachable, because the
allocation size is computed in wrapping `u32` arithmetic while `from_raw`
checks the exact product: with both hotspots `2^16` the allocation wraps to
`0` bytes but `from_raw` expects `2^36`, so the `.expect` panics. -/
theorem claim8_counterexample :
    (hicon_to_image ⟨1, 1, true, true, true, 65536, 65536, true, [], 32,
      true, true, true, true, true⟩).1 = Outcome.panicked := by decide

/-- Bounds used for C8: when `16 * x * y < 2^32` (and both factors are
positive), none of the intermediate `u32` products wraps, so the `from_raw`
size fits and matches the allocation. -/
lemma no_overflow_bounds (x y : Nat) (hx1 : 0 < x) (hy1 : 0 < y)
    (hov : 16 * x * y < U32) :
    ¬(18446744073709551616 ≤ x * 2 % U32 * (y * 2 % U32) * 4) ∧
    x * 2 % U32 * (y * 2 % U32) * 4 ≤
      x * 2 % U32 * y % U32 * 2 % U32 * 4 % U32 := by
  have A1 : x * 2 < U32 := by
    have hle : x * 2 ≤ 16 * x * y := by
      calc x * 2 ≤ x * (16 * y) := mul_le_mul_left' (by omega) x
        _ = 16 * x * y := by ring
    omega
  have A5 : y * 2 < U32 := by
    have hle : y * 2 ≤ 16 * x * y := by
      calc y * 2 ≤ y * (16 * x) := mul_le_mul_left' (by omega) y
        _ = 16 * x * y := by ring
    omega
  have A2 : x * 2 * y < U32 := by
    have hle : x * 2 * y ≤ 16 * x * y := by
      calc x * 2 * y = x * y * 2 := by ring
        _ ≤ x * y * 16 := mul_le_mul_left' (by omega) (x * y)
        _ = 16 * x * y := by ring
    omega
  have A3 : x * 2 * y * 2 < U32 := by
    have hle : x * 2 * y * 2 ≤ 16 * x * y := by
      calc x * 2 * y * 2 = x * y * 4 := by ring
        _ ≤ x * y * 16 := mul_le_mul_left' (by omega) (x * y)
        _ = 16 * x * y := by ring
    omega
  have A4 : x * 2 * y * 2 * 4 < U32 := by
    have e : x * 2 * y * 2 * 4 = 16 * x * y := by ring
    omega
  constructor
  · rw [Nat.mod_eq_of_lt A1, Nat.mod_eq_of_lt A5]
    have e : x * 2 * (y * 2) * 4 = 16 * x * y := by ring
    have hU : U32 = 4294967296 := rfl
    omega
  · rw [Nat.mod_eq_of_lt A1, Nat.mod_eq_of_lt A2, Nat.mod_eq_of_lt A3,
      Nat.mod_eq_of_lt A4, Nat.mod_eq_of_lt A5]
    have e : x * 2 * (y * 2) * 4 = x * 2 * y * 2 * 4 := by ring
    omega

/-- Claim C8, amended: the length-mismatch branch is unreachable whenever
the `u32` size computation `hotspot_x*2 * hotspot_y*2 * 4` does not
overflow (`16 * hx * hy < 2^32`): then the buffer is allocated at exactly
`width * height * 4` bytes and the reorder preserves length, so the
construction cannot panic. -/
theorem claim8_no_panic_without_overflow (env : WinEnv)
    (hov : 16 * (env.xHotspot % U32) * (env.yHotspot % U32) < U32) :
    (hicon_to_image env).1 ≠ Outcome.panicked := by
  by_cases hx0 : env.xHotspot % U32 = 0
  · refine hicon_no_panic env ?_ ?_
    · simp [hx0]
    · simp [hx0]
  by_cases hy0 : env.yHotspot % U32 = 0
  · refine hicon_no_panic env ?_ ?_
    · simp [hy0]
    · simp [hy0]
  · exact hicon_no_panic env
      (no_overflow_bounds (env.xHotspot % U32) (env.yHotspot % U32)
        (Nat.pos_of_ne_zero hx0) (Nat.pos_of_ne_zero hy0) hov).1
      (no_overflow_bounds (env.xHotspot % U32) (env.yHotspot % U32)
        (Nat.pos_of_ne_zero hx0) (Nat.pos_of_ne_zero hy0) hov).2

/-- Witness for the amended C8 at a 1x1-hotspot environment. -/
theorem claim8_witness :
    (hicon_to_image ⟨1, 1, true, true, true, 1, 1, true, [], 32,
      true, true, true, true, true⟩).1 ≠ Outcome.panicked :=
  claim8_no_panic_without_overflow _ (by decide)

/-- Claim C9 (code bug): the claim states that the icon resource is destroyed
exactly once on every path after it has been obtained.  The code calls
`DestroyIcon` only after a successful conversion; the `?` on
`hicon_to_image(&icon)?` (line 39) returns a conversion failure *without*
destroying the icon, as the empty trace of this evaluation shows (the
shell lookup, image list and `GetIcon` all succeeded here, so the icon was
obtained). -/
theorem claim9_destroy_skipped_on_conversion_failure :
    fetch_icon_as_image ⟨1, 5, true, true, false, 1, 1, true, [], 32,
      true, true, true, true, true⟩ =
      (Outcome.err Err.resourceInfoUnavailable, []) := by decide

/-- Claim C10: whenever the shell file-info lookup reports system icon index
0, `fetch_icon_as_image` returns the "Failed to retrieve icon" error — even
when the lookup call itself returned nonzero — so such a path can never
succeed. -/
theorem claim10_icon_index_zero_never_succeeds (env : WinEnv)
    (h : env.iIcon = 0) :
    (fetch_icon_as_image env).1 = Outcome.err Err.resolutionFailed := by
  simp [fetch_icon_as_image, h]

/-- Witness for C10 with a successful lookup (`shGetFileInfoRet = 1`) whose
icon index is 0. -/
theorem claim10_witness :
    (fetch_icon_as_image ⟨1, 0, true, true, true, 1, 1, true, [], 32,
      true, true, true, true, true⟩).1 = Outcome.err Err.resolutionFailed :=
  claim10_icon_index_zero_never_succeeds _ (by decide)
